import Mathlib

/-!
Verification development for the OptiWeave operator-instrumentation core.

The definitions below are a shallow embedding of the C++ sources:

* `getBinaryOperatorSpelling`, `generateArraySubscriptInstrumentation`,
  `generateBinaryOperatorInstrumentation`, `isTemplateDependentType`,
  `getSourceText`, `shouldSkipExpression`, `isAlreadyProcessed`,
  `markAsProcessed`, `transformArraySubscript`, `transformBinaryOperator`,
  `VisitArraySubscriptExpr`/`VisitBinaryOperator` (as `visitArraySubscriptExpr`
  and `visitBinaryOperator`) and the post-order traversal of
  `ModernASTVisitor` (src/src/utils/diagnostic_utils.cpp, second unit, and the
  header in src/unnamed/part_011);
* `rangesOverlap` and `SourceUtils_rangesOverlap`
  (src/src/utils/source_utils.cpp);
* `TypeAnalyzer.isSafeForInstrumentation`
  (src/src/Matchers/type_matchers.cpp);
* `arraySubscriptMatcher` (src/unnamed/part_006);
* `endSourceFileAction` (TransformationAction::EndSourceFileAction,
  src/unnamed/part_009).

Buffers and emitted text are `List Char`; source spans are byte-offset pairs.
Clang source locations are modelled by their file offsets, and a clang
`SourceRange` by a `(valid, fileId, begin-offset, end-offset)` record, with
the half-open reading `[b, e)` of the offsets that the spec uses for spans.
The clang rewriter is modelled as an accumulating edit list; `ReplaceText`
is modelled as always succeeding (its failure path in the C++ concerns
non-rewritable macro locations, which the claims under study do not touch).
The source manager's buffer, from which all operand text is extracted, is
the immutable `buf` argument threaded through the visitor, exactly as
`context_.getSourceManager()` always exposes the unmodified file contents.
-/

namespace OptiWeave

/-- Byte span of a clang source range: `valid` models
`SourceRange::isValid`, `b`/`e` the file offsets of its begin and end. -/
structure Span where
  valid : Bool
  b : Nat
  e : Nat
deriving DecidableEq

/-- The fields of a clang `QualType` that the embedded code inspects:
the printed name (`getAsString` with the printing policy) and the boolean
type queries used by `isTemplateDependentType` and
`TypeAnalyzer::isSafeForInstrumentation` (the latter inspects the
canonical type, so the flags here model the canonical type's answers). -/
structure CType where
  name : String
  isDependent : Bool
  isInstantiationDependent : Bool
  isTemplateTypeParm : Bool
  isUndeduced : Bool
  isVolatileQualified : Bool
  isFunctionType : Bool
  isIncompleteType : Bool
deriving DecidableEq

/-- The binary operator kinds that appear in the switch of
`getBinaryOperatorSpelling`; `other` stands for every opcode the switch
sends to its default case. -/
inductive BinOp where
  | add | sub | mul | div | rem
  | assign | addAssign | subAssign | mulAssign | divAssign | remAssign
  | eq | ne | lt | gt | le | ge
  | other
deriving DecidableEq

/-- `getBinaryOperatorSpelling` from diagnostic_utils.cpp. -/
def getBinaryOperatorSpelling : BinOp → String
  | .add => "+"
  | .sub => "-"
  | .mul => "*"
  | .div => "/"
  | .rem => "%"
  | .assign => "="
  | .addAssign => "+="
  | .subAssign => "-="
  | .mulAssign => "*="
  | .divAssign => "/="
  | .remAssign => "%="
  | .eq => "=="
  | .ne => "!="
  | .lt => "<"
  | .gt => ">"
  | .le => "<="
  | .ge => ">="
  | .other => "unknown"

/-- `BinaryOperator::isArithmeticOp` restricted to the modelled opcodes. -/
def BinOp.isArithmeticOp : BinOp → Bool
  | .add | .sub | .mul | .div | .rem => true
  | _ => false

/-- `BinaryOperator::isAssignmentOp` restricted to the modelled opcodes. -/
def BinOp.isAssignmentOp : BinOp → Bool
  | .assign | .addAssign | .subAssign | .mulAssign | .divAssign
  | .remAssign => true
  | _ => false

/-- `BinaryOperator::isComparisonOp` restricted to the modelled opcodes. -/
def BinOp.isComparisonOp : BinOp → Bool
  | .eq | .ne | .lt | .gt | .le | .ge => true
  | _ => false

/-- The expression shapes the visitor distinguishes: array subscripts and
binary operators (the transformation targets), address-of unary operators
and `UnaryExprOrTypeTraitExpr` (the contexts that make a child candidate
skipped), and opaque atoms for everything else.  `sys` models
`SourceManager::isInSystemHeader` at the node's begin location. -/
inductive CExpr where
  | atom (sp : Span) (sys : Bool)
  | subscript (sp : Span) (sys : Bool) (lhsTy : CType) (lhs rhs : CExpr)
  | binop (sp : Span) (sys : Bool) (op : BinOp) (lhsTy rhsTy : CType)
      (lhs rhs : CExpr)
  | addrOf (sp : Span) (sys : Bool) (operand : CExpr)
  | sizeofOp (sp : Span) (sys : Bool) (operand : CExpr)
deriving DecidableEq

/-- The node's source range (`getSourceRange`). -/
def CExpr.span : CExpr → Span
  | .atom sp _ => sp
  | .subscript sp _ _ _ _ => sp
  | .binop sp _ _ _ _ _ _ => sp
  | .addrOf sp _ _ => sp
  | .sizeofOp sp _ _ => sp

/-- Whether the node lies in a system header. -/
def CExpr.sysHeader : CExpr → Bool
  | .atom _ sys => sys
  | .subscript _ sys _ _ _ => sys
  | .binop _ sys _ _ _ _ _ => sys
  | .addrOf _ sys _ => sys
  | .sizeofOp _ sys _ => sys

/-- What `context_.getParents` reveals about the immediately containing
construct: the only parent shapes `shouldSkipExpression` reacts to are an
address-of unary operator and a `UnaryExprOrTypeTraitExpr`. -/
inductive ParentCtx where
  | root
  | addrOf
  | sizeofTrait
  | otherCtx
deriving DecidableEq

/-- True exactly when `shouldSkipExpression`'s parent loop fires: the
parent is an address-of unary operator or a size-of/alignment trait. -/
def isContextSkipped : ParentCtx → Bool
  | .addrOf => true
  | .sizeofTrait => true
  | _ => false

/-- `TransformationConfig` from src/unnamed/part_011 (the fields the
embedded code reads). -/
structure TransformationConfig where
  transform_array_subscripts : Bool := true
  transform_arithmetic_operators : Bool := false
  transform_assignment_operators : Bool := false
  transform_comparisons_operators : Bool := false
  skip_system_headers : Bool := true
deriving DecidableEq

/-- `TransformationStats` from src/unnamed/part_011: these four counters
are the only statistics the visitor keeps. -/
structure TransformationStats where
  array_subscripts_transformed : Nat := 0
  arithmetic_ops_transformed : Nat := 0
  template_instantiations_skipped : Nat := 0
  errors_encountered : Nat := 0
deriving DecidableEq

/-- The visitor's mutable state: the rewriter's accumulated replacements,
the `processed_ranges_` set of exact offset pairs, and the statistics. -/
structure VState where
  edits : List (Span × List Char) := []
  processed : List (Nat × Nat) := []
  stats : TransformationStats := {}
deriving DecidableEq

/-- `ModernASTVisitor::isTemplateDependentType`. -/
def isTemplateDependentType (ty : CType) : Bool :=
  ty.isDependent || ty.isInstantiationDependent || ty.isTemplateTypeParm ||
    ty.isUndeduced

/-- `ModernASTVisitor::getSourceText`: extracting the text of a range from
the source manager's unmodified buffer, yielding the empty string when the
range is invalid or reaches past the buffer. -/
def getSourceText (buf : List Char) (sp : Span) : List Char :=
  if sp.valid = false then []
  else if buf.length < sp.e then []
  else (buf.drop sp.b).take (sp.e - sp.b)

/-- `ModernASTVisitor::generateArraySubscriptInstrumentation`. -/
def generateArraySubscriptInstrumentation (lhsTy : CType)
    (lhsText rhsText : List Char) : List Char :=
  if isTemplateDependentType lhsTy then
    "__maybe_primop_subscript<decltype(".data ++ lhsText ++
      "), !__has_subscript_overload<decltype(".data ++ lhsText ++
      ")>::value>()(".data ++ lhsText ++ ", ".data ++ rhsText ++ ")".data
  else
    "__primop_subscript<".data ++ lhsTy.name.data ++ ">()(".data ++
      lhsText ++ ", ".data ++ rhsText ++ ")".data

/-- `ModernASTVisitor::generateBinaryOperatorInstrumentation`. -/
def generateBinaryOperatorInstrumentation (op : BinOp) (lhsTy rhsTy : CType)
    (lhsText rhsText : List Char) : List Char :=
  if isTemplateDependentType lhsTy || isTemplateDependentType rhsTy then
    "__maybe_primop_".data ++ (getBinaryOperatorSpelling op).data ++
      "<decltype(".data ++ lhsText ++ "), decltype(".data ++ rhsText ++
      ")>()(".data ++ lhsText ++ ", ".data ++ rhsText ++ ")".data
  else
    "__primop_".data ++ (getBinaryOperatorSpelling op).data ++ "<".data ++
      lhsTy.name.data ++ ", ".data ++ rhsTy.name.data ++ ">()(".data ++
      lhsText ++ ", ".data ++ rhsText ++ ")".data

/-- `ModernASTVisitor::shouldSkipExpression`: system-header filtering plus
the parent checks for address-of and size-of contexts. -/
def shouldSkipExpression (cfg : TransformationConfig) (sys : Bool)
    (parent : ParentCtx) : Bool :=
  (cfg.skip_system_headers && sys) || isContextSkipped parent

/-- `ModernASTVisitor::isAlreadyProcessed`: membership of the exact
`(begin offset, end offset)` pair in `processed_ranges_`. -/
def isAlreadyProcessed (s : VState) (sp : Span) : Bool :=
  (sp.b, sp.e) ∈ s.processed

/-- `ModernASTVisitor::markAsProcessed`: adding the exact offset pair to
`processed_ranges_`. -/
def markAsProcessed (s : VState) (sp : Span) : VState :=
  { s with processed := s.processed ++ [(sp.b, sp.e)] }

/-- `ModernASTVisitor::transformArraySubscript`: extract both operand
texts from the unmodified buffer, fail (with no edit) if either is empty,
otherwise record the generated replacement for the whole expression. -/
def transformArraySubscript (buf : List Char) (sp : Span) (lhsTy : CType)
    (lhs rhs : CExpr) (s : VState) : Bool × VState :=
  let lhsText := getSourceText buf lhs.span
  let rhsText := getSourceText buf rhs.span
  if lhsText.isEmpty || rhsText.isEmpty then (false, s)
  else
    let instr := generateArraySubscriptInstrumentation lhsTy lhsText rhsText
    (true, { s with edits := s.edits ++ [(sp, instr)] })

/-- `ModernASTVisitor::transformBinaryOperator`, same shape as the
subscript case. -/
def transformBinaryOperator (buf : List Char) (sp : Span) (op : BinOp)
    (lhsTy rhsTy : CType) (lhs rhs : CExpr) (s : VState) : Bool × VState :=
  let lhsText := getSourceText buf lhs.span
  let rhsText := getSourceText buf rhs.span
  if lhsText.isEmpty || rhsText.isEmpty then (false, s)
  else
    let instr :=
      generateBinaryOperatorInstrumentation op lhsTy rhsTy lhsText rhsText
    (true, { s with edits := s.edits ++ [(sp, instr)] })

/-- `ModernASTVisitor::VisitArraySubscriptExpr`: skip checks, the
processed-set check, then the transform with its statistics updates. -/
def visitArraySubscriptExpr (cfg : TransformationConfig) (buf : List Char)
    (sp : Span) (sys : Bool) (lhsTy : CType) (lhs rhs : CExpr)
    (parent : ParentCtx) (s : VState) : VState :=
  if shouldSkipExpression cfg sys parent then s
  else if isAlreadyProcessed s sp then s
  else if cfg.transform_array_subscripts then
    match transformArraySubscript buf sp lhsTy lhs rhs s with
    | (true, s1) =>
        let s2 := markAsProcessed s1 sp
        { s2 with stats := { s2.stats with
            array_subscripts_transformed :=
              s2.stats.array_subscripts_transformed + 1 } }
    | (false, s1) =>
        { s1 with stats := { s1.stats with
            errors_encountered := s1.stats.errors_encountered + 1 } }
  else s

/-- `ModernASTVisitor::VisitBinaryOperator`. -/
def visitBinaryOperator (cfg : TransformationConfig) (buf : List Char)
    (sp : Span) (sys : Bool) (op : BinOp) (lhsTy rhsTy : CType)
    (lhs rhs : CExpr) (parent : ParentCtx) (s : VState) : VState :=
  if shouldSkipExpression cfg sys parent then s
  else if isAlreadyProcessed s sp then s
  else
    let shouldTransform :=
      (op.isArithmeticOp && cfg.transform_arithmetic_operators) ||
      (op.isAssignmentOp && cfg.transform_assignment_operators) ||
      (op.isComparisonOp && cfg.transform_comparisons_operators)
    if shouldTransform then
      match transformBinaryOperator buf sp op lhsTy rhsTy lhs rhs s with
      | (true, s1) =>
          let s2 := markAsProcessed s1 sp
          { s2 with stats := { s2.stats with
              arithmetic_ops_transformed :=
                s2.stats.arithmetic_ops_transformed + 1 } }
      | (false, s1) =>
          { s1 with stats := { s1.stats with
              errors_encountered := s1.stats.errors_encountered + 1 } }
    else s

/-- Dispatch of the `Visit` handlers on one node.  `VisitUnaryOperator`
and `VisitCXXOperatorCallExpr` are TODO stubs in the source, and atoms
have no handler, so only subscripts and binary operators act. -/
def visitNode (cfg : TransformationConfig) (buf : List Char) :
    CExpr → ParentCtx → VState → VState
  | .subscript sp sys lhsTy lhs rhs, parent, s =>
      visitArraySubscriptExpr cfg buf sp sys lhsTy lhs rhs parent s
  | .binop sp sys op lhsTy rhsTy lhs rhs, parent, s =>
      visitBinaryOperator cfg buf sp sys op lhsTy rhsTy lhs rhs parent s
  | _, _, s => s

/-- `RecursiveASTVisitor` traversal with
`shouldTraversePostOrder() = true`: every child subtree is traversed, in
source order, before the `Visit` handler runs on the node itself.  The
`ParentCtx` argument is what `getParents` would report for the node. -/
def traverse (cfg : TransformationConfig) (buf : List Char) :
    CExpr → ParentCtx → VState → VState
  | .atom _ _, _, s => s
  | .addrOf _ _ operand, _, s => traverse cfg buf operand .addrOf s
  | .sizeofOp _ _ operand, _, s => traverse cfg buf operand .sizeofTrait s
  | .subscript sp sys lhsTy lhs rhs, parent, s =>
      let s1 := traverse cfg buf lhs .otherCtx s
      let s2 := traverse cfg buf rhs .otherCtx s1
      visitArraySubscriptExpr cfg buf sp sys lhsTy lhs rhs parent s2
  | .binop sp sys op lhsTy rhsTy lhs rhs, parent, s =>
      let s1 := traverse cfg buf lhs .otherCtx s
      let s2 := traverse cfg buf rhs .otherCtx s1
      visitBinaryOperator cfg buf sp sys op lhsTy rhsTy lhs rhs parent s2

/-- Splicing one replacement into the buffer over its half-open span. -/
def applyEdit (buf : List Char) (ed : Span × List Char) : List Char :=
  buf.take ed.1.b ++ ed.2 ++ buf.drop ed.1.e

/-- Insert an edit into a list kept in descending start-offset order. -/
def insertDescending (ed : Span × List Char) :
    List (Span × List Char) → List (Span × List Char)
  | [] => [ed]
  | e1 :: rest =>
      if e1.1.b ≤ ed.1.b then ed :: e1 :: rest
      else e1 :: insertDescending ed rest

/-- Sort edits by descending start offset. -/
def sortDescending (edits : List (Span × List Char)) :
    List (Span × List Char) :=
  edits.foldr insertDescending []

/-- Apply all accumulated edits to a copy of the original buffer,
proceeding in descending start-offset order so earlier offsets remain
valid after each splice (the effect of clang's rewrite buffer). -/
def applyEdits (buf : List Char) (edits : List (Span × List Char)) :
    List Char :=
  (sortDescending edits).foldl applyEdit buf

/-- `Rewriter::getRewriteBufferFor`: `none` exactly when no edit was made
to the file, otherwise the rewritten buffer. -/
def getRewriteBufferFor (buf : List Char)
    (edits : List (Span × List Char)) : Option (List Char) :=
  if edits.isEmpty then none else some (applyEdits buf edits)

/-- `TransformationAction::EndSourceFileAction` from src/unnamed/part_009:
use the rewrite buffer when one exists, else return the original text. -/
def endSourceFileAction (buf : List Char)
    (edits : List (Span × List Char)) : List Char :=
  match getRewriteBufferFor buf edits with
  | some rewritten => rewritten
  | none => buf

/-- A clang `SourceRange` for the overlap checks: validity, the file of
its locations, and the file offsets of its begin and end. -/
structure SrcRange where
  valid : Bool
  fileId : Nat
  b : Nat
  e : Nat
deriving DecidableEq

/-- The free function `optiweave::utils::rangesOverlap`
(src/src/utils/source_utils.cpp, second unit): compares file offsets with
half-open semantics and performs no file check. -/
def rangesOverlap (r1 r2 : SrcRange) : Bool :=
  if r1.valid = false || r2.valid = false then false
  else !(decide (r1.e ≤ r2.b) || decide (r1.b ≥ r2.e))

/-- `SourceUtils::rangesOverlap` (src/src/utils/source_utils.cpp, first
unit): requires the same file, then reports overlap unless one range ends
strictly before the other begins (`isBeforeInTranslationUnit`, modelled as
strict offset order within one file). -/
def SourceUtils_rangesOverlap (r1 r2 : SrcRange) : Bool :=
  if r1.valid = false || r2.valid = false then false
  else if r1.fileId ≠ r2.fileId then false
  else !(decide (r1.e < r2.b) || decide (r2.e < r1.b))

/-- `TypeAnalyzer::isSafeForInstrumentation`
(src/src/Matchers/type_matchers.cpp): rejects volatile-qualified,
function, and incomplete canonical types. -/
def isSafeForInstrumentation (ty : CType) : Bool :=
  if ty.isVolatileQualified then false
  else if ty.isFunctionType then false
  else if ty.isIncompleteType then false
  else true

/-- Whether a node is an `ArraySubscriptExpr`. -/
def isSubscriptNode : CExpr → Bool
  | .subscript _ _ _ _ _ => true
  | _ => false

/-- `OperatorMatchers::arraySubscriptMatcher` (src/unnamed/part_006):
an array-subscript node, unless it is in a system-header expansion,
unless its parent is an address-of unary operator, and unless its parent
is a `UnaryExprOrTypeTraitExpr`. -/
def arraySubscriptMatcher (e : CExpr) (parent : ParentCtx) : Bool :=
  isSubscriptNode e && !e.sysHeader &&
    !(decide (parent = .addrOf)) && !(decide (parent = .sizeofTrait))

/-- Whether a node is one of the two candidate shapes the visitor
transforms. -/
def isCandidateNode : CExpr → Bool
  | .subscript _ _ _ _ _ => true
  | .binop _ _ _ _ _ _ _ => true
  | _ => false

/-- The span keys of the accumulated edits, in order. -/
def editKeys (s : VState) : List (Nat × Nat) :=
  s.edits.map (fun ed => (ed.1.b, ed.1.e))

/-- Number of occurrences of a pattern inside a character list, counted
at every position. -/
def countOccurrences (pat l : List Char) : Nat :=
  (l.tails.filter (fun t => pat.isPrefixOf t)).length

/-- The ledger invariant threaded through the traversal: the edit span
keys are pairwise distinct and every one of them has been recorded in the
processed-range set. -/
def GoodState (s : VState) : Prop :=
  (editKeys s).Nodup ∧ ∀ k ∈ editKeys s, k ∈ s.processed

/-- The visitor's initial state. -/
def initState : VState := {}

/-- The default transformation configuration (array subscripts on, binary
operators off, system headers skipped). -/
def defaultCfg : TransformationConfig := {}

/-- A configuration with every transformation category disabled. -/
def cfgOff : TransformationConfig :=
  { transform_array_subscripts := false }

/-- A fully resolved pointer type. -/
def intTy : CType :=
  { name := "int *", isDependent := false, isInstantiationDependent := false,
    isTemplateTypeParm := false, isUndeduced := false,
    isVolatileQualified := false, isFunctionType := false,
    isIncompleteType := false }

/-- A template-dependent operand type. -/
def depTy : CType :=
  { name := "T", isDependent := true, isInstantiationDependent := true,
    isTemplateTypeParm := true, isUndeduced := false,
    isVolatileQualified := false, isFunctionType := false,
    isIncompleteType := false }

/-- A volatile-qualified, fully resolved pointer type. -/
def volTy : CType :=
  { name := "volatile int *", isDependent := false,
    isInstantiationDependent := false, isTemplateTypeParm := false,
    isUndeduced := false, isVolatileQualified := true,
    isFunctionType := false, isIncompleteType := false }

/-- A four-character demonstration buffer holding the expression text
of a subscript access. -/
def demoBuf : List Char := "v[2]".data

/-- The base operand of the demonstration subscript: byte span 0..1. -/
def demoLhs : CExpr := .atom ⟨true, 0, 1⟩ false

/-- The index operand of the demonstration subscript: byte span 2..3. -/
def demoRhs : CExpr := .atom ⟨true, 2, 3⟩ false

/-- An operand with an invalid source range, whose text extraction
yields the empty string. -/
def badLhs : CExpr := .atom ⟨false, 0, 1⟩ false

/-- The demonstration subscript candidate over `demoBuf`, parameterized
by the base operand's type. -/
def demoSubscript (ty : CType) : CExpr :=
  .subscript ⟨true, 0, 4⟩ false ty demoLhs demoRhs

/-- A visitor state whose processed-range set already holds the span key
of the demonstration subscript. -/
def procState : VState := { processed := [(0, 4)] }

/-- A configuration with the arithmetic binary-operator transformation
enabled (array subscripts stay on by default). -/
def cfgArith : TransformationConfig :=
  { transform_arithmetic_operators := true }

/-- Exhaustive description of one `VisitArraySubscriptExpr` step: either
the state is untouched, or the candidate fails text extraction and only
the error counter moves, or it is transformed: the generated replacement
(built from the unmodified buffer) is appended, the exact span key is
recorded, and the subscript counter moves.  The last two cases can only
happen when the span key was not yet processed. -/
theorem visitArraySubscriptExpr_cases (cfg : TransformationConfig)
    (buf : List Char) (sp : Span) (sys : Bool) (lhsTy : CType)
    (lhs rhs : CExpr) (parent : ParentCtx) (s : VState) :
    visitArraySubscriptExpr cfg buf sp sys lhsTy lhs rhs parent s = s ∨
    (isAlreadyProcessed s sp = false ∧
      visitArraySubscriptExpr cfg buf sp sys lhsTy lhs rhs parent s =
        { s with stats := { s.stats with
            errors_encountered := s.stats.errors_encountered + 1 } }) ∨
    (isAlreadyProcessed s sp = false ∧
      visitArraySubscriptExpr cfg buf sp sys lhsTy lhs rhs parent s =
        { s with
          edits := s.edits ++ [(sp, generateArraySubscriptInstrumentation
            lhsTy (getSourceText buf lhs.span) (getSourceText buf rhs.span))],
          processed := s.processed ++ [(sp.b, sp.e)],
          stats := { s.stats with
            array_subscripts_transformed :=
              s.stats.array_subscripts_transformed + 1 } }) := by
  unfold visitArraySubscriptExpr
  by_cases h1 : shouldSkipExpression cfg sys parent
  · left; simp [h1]
  · by_cases h2 : isAlreadyProcessed s sp
    · left; simp [h1, h2]
    · by_cases h3 : cfg.transform_array_subscripts
      · unfold transformArraySubscript
        by_cases h4 : (getSourceText buf lhs.span).isEmpty ||
            (getSourceText buf rhs.span).isEmpty
        · right; left
          refine ⟨by simp [h2], ?_⟩
          simp [h1, h2, h3, h4]
        · right; right
          refine ⟨by simp [h2], ?_⟩
          simp [h1, h2, h3, h4, markAsProcessed]
      · left; simp [h1, h2, h3]

/-- The analogous exhaustive description of one `VisitBinaryOperator`
step. -/
theorem visitBinaryOperator_cases (cfg : TransformationConfig)
    (buf : List Char) (sp : Span) (sys : Bool) (op : BinOp)
    (lhsTy rhsTy : CType) (lhs rhs : CExpr) (parent : ParentCtx)
    (s : VState) :
    visitBinaryOperator cfg buf sp sys op lhsTy rhsTy lhs rhs parent s = s ∨
    (isAlreadyProcessed s sp = false ∧
      visitBinaryOperator cfg buf sp sys op lhsTy rhsTy lhs rhs parent s =
        { s with stats := { s.stats with
            errors_encountered := s.stats.errors_encountered + 1 } }) ∨
    (isAlreadyProcessed s sp = false ∧
      visitBinaryOperator cfg buf sp sys op lhsTy rhsTy lhs rhs parent s =
        { s with
          edits := s.edits ++ [(sp, generateBinaryOperatorInstrumentation
            op lhsTy rhsTy (getSourceText buf lhs.span)
            (getSourceText buf rhs.span))],
          processed := s.processed ++ [(sp.b, sp.e)],
          stats := { s.stats with
            arithmetic_ops_transformed :=
              s.stats.arithmetic_ops_transformed + 1 } }) := by
  unfold visitBinaryOperator
  by_cases h1 : shouldSkipExpression cfg sys parent
  · left; simp [h1]
  · by_cases h2 : isAlreadyProcessed s sp
    · left; simp [h1, h2]
    · by_cases h3 : (op.isArithmeticOp && cfg.transform_arithmetic_operators) ||
          (op.isAssignmentOp && cfg.transform_assignment_operators) ||
          (op.isComparisonOp && cfg.transform_comparisons_operators)
      · unfold transformBinaryOperator
        by_cases h4 : (getSourceText buf lhs.span).isEmpty ||
            (getSourceText buf rhs.span).isEmpty
        · right; left
          refine ⟨by simp [h2], ?_⟩
          simp [h1, h2, h3, h4]
        · right; right
          refine ⟨by simp [h2], ?_⟩
          simp [h1, h2, h3, h4, markAsProcessed]
      · left; simp [h1, h2, h3]

/-- C1: the traversal of either candidate shape — an array subscript or a
binary operator — is strictly post-order: both operand subtrees are
traversed (committing any descendant edits) before the node's own handler
runs; and the replacement the handler may append embeds the operand texts
extracted by `getSourceText` from the original, unmodified buffer `buf` —
a pure function of the buffer and the operand spans, never of the
already-accumulated replacement texts.  Hence for every candidate pair
with A contained in B (an operand subtree of either container shape), if
A was transformed, B's generated text still uses A's original source text
for that sub-span, not A's replacement. -/
theorem c1_postorder_operand_text_from_original_buffer :
    (∀ (cfg : TransformationConfig) (buf : List Char) (sp : Span)
      (sys : Bool) (lhsTy : CType) (lhs rhs : CExpr) (parent : ParentCtx)
      (s : VState),
      (traverse cfg buf (.subscript sp sys lhsTy lhs rhs) parent s).edits =
        (traverse cfg buf rhs .otherCtx
          (traverse cfg buf lhs .otherCtx s)).edits ∨
      (traverse cfg buf (.subscript sp sys lhsTy lhs rhs) parent s).edits =
        (traverse cfg buf rhs .otherCtx
          (traverse cfg buf lhs .otherCtx s)).edits ++
          [(sp, generateArraySubscriptInstrumentation lhsTy
              (getSourceText buf lhs.span) (getSourceText buf rhs.span))]) ∧
    (∀ (cfg : TransformationConfig) (buf : List Char) (sp : Span)
      (sys : Bool) (op : BinOp) (lhsTy rhsTy : CType) (lhs rhs : CExpr)
      (parent : ParentCtx) (s : VState),
      (traverse cfg buf (.binop sp sys op lhsTy rhsTy lhs rhs) parent
        s).edits =
        (traverse cfg buf rhs .otherCtx
          (traverse cfg buf lhs .otherCtx s)).edits ∨
      (traverse cfg buf (.binop sp sys op lhsTy rhsTy lhs rhs) parent
        s).edits =
        (traverse cfg buf rhs .otherCtx
          (traverse cfg buf lhs .otherCtx s)).edits ++
          [(sp, generateBinaryOperatorInstrumentation op lhsTy rhsTy
              (getSourceText buf lhs.span) (getSourceText buf rhs.span))]) := by
  constructor
  · intro cfg buf sp sys lhsTy lhs rhs parent s
    have hstep := visitArraySubscriptExpr_cases cfg buf sp sys lhsTy lhs rhs
      parent
      (traverse cfg buf rhs .otherCtx (traverse cfg buf lhs .otherCtx s))
    rcases hstep with h | ⟨_, h⟩ | ⟨_, h⟩
    · left
      simp only [traverse]
      rw [h]
    · left
      simp only [traverse]
      rw [h]
    · right
      simp only [traverse]
      rw [h]
  · intro cfg buf sp sys op lhsTy rhsTy lhs rhs parent s
    have hstep := visitBinaryOperator_cases cfg buf sp sys op lhsTy rhsTy
      lhs rhs parent
      (traverse cfg buf rhs .otherCtx (traverse cfg buf lhs .otherCtx s))
    rcases hstep with h | ⟨_, h⟩ | ⟨_, h⟩
    · left
      simp only [traverse]
      rw [h]
    · left
      simp only [traverse]
      rw [h]
    · right
      simp only [traverse]
      rw [h]

/-- C2: the generator for array subscripts dispatches on the dependency
classification of the base operand's type.  A fully resolved type yields
a call to the concrete entry point `__primop_subscript` parameterized by
the resolved type name; a template-dependent type yields a call to the
deferred-dispatch entry point `__maybe_primop_subscript` parameterized by
`decltype` of the operand text, and that emitted text is never a call to
the concrete entry point. -/
theorem c2_subscript_dispatch_on_type_dependency (ty : CType)
    (l r : List Char) :
    (isTemplateDependentType ty = false →
      generateArraySubscriptInstrumentation ty l r =
        "__primop_subscript<".data ++ ty.name.data ++ ">()(".data ++ l ++
          ", ".data ++ r ++ ")".data) ∧
    (isTemplateDependentType ty = true →
      generateArraySubscriptInstrumentation ty l r =
        "__maybe_primop_subscript<decltype(".data ++ l ++
          "), !__has_subscript_overload<decltype(".data ++ l ++
          ")>::value>()(".data ++ l ++ ", ".data ++ r ++ ")".data ∧
      ¬ ("__primop_subscript".data <+:
          generateArraySubscriptInstrumentation ty l r)) := by
  constructor
  · intro h
    simp [generateArraySubscriptInstrumentation, h]
  · intro h
    have heq : generateArraySubscriptInstrumentation ty l r =
        "__maybe_primop_subscript<decltype(".data ++ (l ++
          ("), !__has_subscript_overload<decltype(".data ++ (l ++
          (")>::value>()(".data ++ (l ++ (", ".data ++ (r ++
          ")".data))))))) := by
      simp [generateArraySubscriptInstrumentation, h]
    refine ⟨by rw [heq]; simp [List.append_assoc], ?_⟩
    intro hpre
    rw [heq] at hpre
    have hfix : "__maybe_primop_subscript<decltype(".data <+:
        "__maybe_primop_subscript<decltype(".data ++ (l ++
          ("), !__has_subscript_overload<decltype(".data ++ (l ++
          (")>::value>()(".data ++ (l ++ (", ".data ++ (r ++
          ")".data))))))) := List.prefix_append _ _
    have hshort := List.prefix_of_prefix_length_le hpre hfix (by decide)
    exact absurd hshort (by decide)

/-- Witness for C2 at a resolved and a dependent input. -/
theorem c2_subscript_dispatch_witness :
    generateArraySubscriptInstrumentation intTy "v".data "2".data =
      "__primop_subscript<".data ++ intTy.name.data ++ ">()(".data ++
        "v".data ++ ", ".data ++ "2".data ++ ")".data ∧
    ¬ ("__primop_subscript".data <+:
        generateArraySubscriptInstrumentation depTy "v".data "2".data) :=
  ⟨(c2_subscript_dispatch_on_type_dependency intTy "v".data "2".data).1
      (by decide),
   ((c2_subscript_dispatch_on_type_dependency depTy "v".data "2".data).2
      (by decide)).2⟩

/-- C3 counterexample: for a template-dependent base type the subscript
generator splices the left operand's text three times (twice inside
unevaluated decltype type arguments), so with left operand text `zz` the
emitted replacement contains `zz` at three positions — refuting, as
stated, that no operand is duplicated in the emitted text. -/
theorem c3_dependent_lhs_text_duplicated_counterexample :
    countOccurrences "zz".data
      (generateArraySubscriptInstrumentation depTy "zz".data "qq".data)
      = 3 ∧ ¬ countOccurrences "zz".data
      (generateArraySubscriptInstrumentation depTy "zz".data "qq".data)
      ≤ 1 := by
  decide

/-- C3 amended: every replacement emitted by the two generators equals a
fixed template, independent of the operand texts, in which the evaluated
argument list splices the left operand's text before the right operand's
text, each exactly once.  In the concrete cases these are the only
splices; in the template-dependent cases the operand texts are
additionally spliced inside unevaluated decltype type arguments (the left
text twice more for subscripts; each text once more for binary
operators). -/
theorem c3_amended_operand_splicing_templates :
    (∀ ty : CType, isTemplateDependentType ty = false →
      ∃ P M S, ∀ l r : List Char,
        generateArraySubscriptInstrumentation ty l r =
          P ++ l ++ M ++ r ++ S) ∧
    (∀ ty : CType, isTemplateDependentType ty = true →
      ∃ P M1 M2 M3 S, ∀ l r : List Char,
        generateArraySubscriptInstrumentation ty l r =
          P ++ l ++ M1 ++ l ++ M2 ++ l ++ M3 ++ r ++ S) ∧
    (∀ (op : BinOp) (tyL tyR : CType),
      (isTemplateDependentType tyL || isTemplateDependentType tyR) = false →
      ∃ P M S, ∀ l r : List Char,
        generateBinaryOperatorInstrumentation op tyL tyR l r =
          P ++ l ++ M ++ r ++ S) ∧
    (∀ (op : BinOp) (tyL tyR : CType),
      (isTemplateDependentType tyL || isTemplateDependentType tyR) = true →
      ∃ P M1 M2 M3 S, ∀ l r : List Char,
        generateBinaryOperatorInstrumentation op tyL tyR l r =
          P ++ l ++ M1 ++ r ++ M2 ++ l ++ M3 ++ r ++ S) := by
  refine ⟨fun ty h => ?_, fun ty h => ?_, fun op tyL tyR h => ?_,
    fun op tyL tyR h => ?_⟩
  · refine ⟨"__primop_subscript<".data ++ ty.name.data ++ ">()(".data,
      ", ".data, ")".data, fun l r => ?_⟩
    simp [generateArraySubscriptInstrumentation, h, List.append_assoc]
  · refine ⟨"__maybe_primop_subscript<decltype(".data,
      "), !__has_subscript_overload<decltype(".data,
      ")>::value>()(".data, ", ".data, ")".data, fun l r => ?_⟩
    simp [generateArraySubscriptInstrumentation, h, List.append_assoc]
  · refine ⟨"__primop_".data ++ (getBinaryOperatorSpelling op).data ++
      "<".data ++ tyL.name.data ++ ", ".data ++ tyR.name.data ++
      ">()(".data, ", ".data, ")".data, fun l r => ?_⟩
    simp only [Bool.or_eq_false_iff] at h
    simp [generateBinaryOperatorInstrumentation, h.1, h.2, List.append_assoc]
  · refine ⟨"__maybe_primop_".data ++ (getBinaryOperatorSpelling op).data ++
      "<decltype(".data, "), decltype(".data, ")>()(".data, ", ".data,
      ")".data, fun l r => ?_⟩
    rcases Bool.or_eq_true_iff.mp h with h1 | h1 <;>
      simp [generateBinaryOperatorInstrumentation, h1, List.append_assoc]

/-- Witness for the amended C3 at a resolved and a dependent input. -/
theorem c3_amended_operand_splicing_witness :
    (∃ P M S, ∀ l r : List Char,
      generateArraySubscriptInstrumentation intTy l r =
        P ++ l ++ M ++ r ++ S) ∧
    (∃ P M1 M2 M3 S, ∀ l r : List Char,
      generateBinaryOperatorInstrumentation .add depTy intTy l r =
        P ++ l ++ M1 ++ r ++ M2 ++ l ++ M3 ++ r ++ S) :=
  ⟨c3_amended_operand_splicing_templates.1 intTy (by decide),
   c3_amended_operand_splicing_templates.2.2.2 .add depTy intTy (by decide)⟩

/-- C4: for every candidate of either shape whose operand text extraction
fails (either operand's extracted text is empty), generation fails
atomically: the accumulated replacements and the processed-range set are
untouched, the candidate is abandoned (nothing marks it transformed), and
exactly one error is recorded in the statistics.  The first conjunct is
the array-subscript path, the second the binary-operator path. -/
theorem c4_extraction_failure_atomic :
    (∀ (cfg : TransformationConfig) (buf : List Char) (sp : Span)
      (sys : Bool) (lhsTy : CType) (lhs rhs : CExpr) (parent : ParentCtx)
      (s : VState),
      shouldSkipExpression cfg sys parent = false →
      isAlreadyProcessed s sp = false →
      cfg.transform_array_subscripts = true →
      (getSourceText buf lhs.span = [] ∨ getSourceText buf rhs.span = []) →
      visitArraySubscriptExpr cfg buf sp sys lhsTy lhs rhs parent s =
        { s with stats := { s.stats with
            errors_encountered := s.stats.errors_encountered + 1 } }) ∧
    (∀ (cfg : TransformationConfig) (buf : List Char) (sp : Span)
      (sys : Bool) (op : BinOp) (lhsTy rhsTy : CType) (lhs rhs : CExpr)
      (parent : ParentCtx) (s : VState),
      shouldSkipExpression cfg sys parent = false →
      isAlreadyProcessed s sp = false →
      ((op.isArithmeticOp && cfg.transform_arithmetic_operators) ||
        (op.isAssignmentOp && cfg.transform_assignment_operators) ||
        (op.isComparisonOp && cfg.transform_comparisons_operators)) = true →
      (getSourceText buf lhs.span = [] ∨ getSourceText buf rhs.span = []) →
      visitBinaryOperator cfg buf sp sys op lhsTy rhsTy lhs rhs parent s =
        { s with stats := { s.stats with
            errors_encountered := s.stats.errors_encountered + 1 } }) := by
  constructor
  · intro cfg buf sp sys lhsTy lhs rhs parent s h1 h2 h3 h4
    have h4' : ((getSourceText buf lhs.span).isEmpty ||
        (getSourceText buf rhs.span).isEmpty) = true := by
      rcases h4 with h | h <;> simp [h]
    unfold visitArraySubscriptExpr transformArraySubscript
    simp [h1, h2, h3, h4']
  · intro cfg buf sp sys op lhsTy rhsTy lhs rhs parent s h1 h2 h3 h4
    have h4' : ((getSourceText buf lhs.span).isEmpty ||
        (getSourceText buf rhs.span).isEmpty) = true := by
      rcases h4 with h | h <;> simp [h]
    unfold visitBinaryOperator transformBinaryOperator
    simp [h1, h2, h3, h4']

/-- Witness for C4 along both candidate paths: the demonstration
subscript and an arithmetic binary operator, each with an invalid base
operand span. -/
theorem c4_extraction_failure_witness :
    shouldSkipExpression defaultCfg false .root = false ∧
    isAlreadyProcessed initState ⟨true, 0, 4⟩ = false ∧
    defaultCfg.transform_array_subscripts = true ∧
    getSourceText demoBuf badLhs.span = [] ∧
    visitArraySubscriptExpr defaultCfg demoBuf ⟨true, 0, 4⟩ false intTy
        badLhs demoRhs .root initState =
      { initState with stats := { initState.stats with
          errors_encountered := initState.stats.errors_encountered + 1 } } ∧
    ((BinOp.add.isArithmeticOp && cfgArith.transform_arithmetic_operators) ||
      (BinOp.add.isAssignmentOp && cfgArith.transform_assignment_operators) ||
      (BinOp.add.isComparisonOp &&
        cfgArith.transform_comparisons_operators)) = true ∧
    visitBinaryOperator cfgArith demoBuf ⟨true, 0, 4⟩ false .add intTy intTy
        badLhs demoRhs .root initState =
      { initState with stats := { initState.stats with
          errors_encountered := initState.stats.errors_encountered + 1 } } :=
  ⟨by decide, by decide, by decide, by decide,
   c4_extraction_failure_atomic.1 defaultCfg demoBuf ⟨true, 0, 4⟩ false
     intTy badLhs demoRhs .root initState (by decide) (by decide)
     (by decide) (Or.inl (by decide)),
   by decide,
   c4_extraction_failure_atomic.2 cfgArith demoBuf ⟨true, 0, 4⟩ false .add
     intTy intTy badLhs demoRhs .root initState (by decide) (by decide)
     (by decide) (Or.inl (by decide))⟩

/-- C5 counterexample: for adjacent half-open byte spans 0..5 and 5..9 in
the same file, the overlap check `SourceUtils::rangesOverlap` cited by the
claim reports a conflict (it treats range ends inclusively), while the
free-function check reports none — so "the overlap check reports no
conflict" is false as stated for the former. -/
theorem c5_sourceutils_adjacent_overlap_counterexample :
    SourceUtils_rangesOverlap ⟨true, 0, 0, 5⟩ ⟨true, 0, 5, 9⟩ = true ∧
    rangesOverlap ⟨true, 0, 0, 5⟩ ⟨true, 0, 5, 9⟩ = false := by
  decide

/-- C5 amended: for valid spans whose end offset equals the next span's
start offset, the free-function overlap check (half-open semantics)
reports no conflict; the `SourceUtils` member variant instead treats
range ends inclusively and reports every such adjacent pair in one file
as overlapping. -/
theorem c5_amended_adjacent_spans :
    (∀ r1 r2 : SrcRange, r1.valid = true → r2.valid = true →
      r1.e = r2.b → rangesOverlap r1 r2 = false) ∧
    (∀ r1 r2 : SrcRange, r1.valid = true → r2.valid = true →
      r1.fileId = r2.fileId → r1.b ≤ r1.e → r1.e = r2.b → r2.b ≤ r2.e →
      SourceUtils_rangesOverlap r1 r2 = true) := by
  constructor
  · intro r1 r2 h1 h2 h3
    simp [rangesOverlap, h1, h2, h3]
  · intro r1 r2 h1 h2 h3 h4 h5 h6
    have hlt1 : ¬ r1.e < r2.b := by omega
    have hlt2 : ¬ r2.e < r1.b := by omega
    simp [SourceUtils_rangesOverlap, h1, h2, h3, hlt1, hlt2]

/-- Witness for the amended C5 at the adjacent spans 0..5 and 5..9. -/
theorem c5_amended_adjacent_spans_witness :
    rangesOverlap ⟨true, 3, 0, 5⟩ ⟨true, 3, 5, 9⟩ = false ∧
    SourceUtils_rangesOverlap ⟨true, 3, 0, 5⟩ ⟨true, 3, 5, 9⟩ = true :=
  ⟨c5_amended_adjacent_spans.1 ⟨true, 3, 0, 5⟩ ⟨true, 3, 5, 9⟩ rfl rfl rfl,
   c5_amended_adjacent_spans.2 ⟨true, 3, 0, 5⟩ ⟨true, 3, 5, 9⟩ rfl rfl rfl
     (by decide) rfl (by decide)⟩

/-- C6 counterexample: visiting the demonstration subscript candidate
under an address-of parent leaves the visitor state exactly unchanged —
in particular every statistics counter, so zero rejection outcomes are
recorded rather than the claimed one ContextRejected (the statistics
structure has no such counter at all).  The second conjunct shows the
same candidate is genuinely transformed outside that context. -/
theorem c6_no_context_rejection_recorded_counterexample :
    visitArraySubscriptExpr defaultCfg demoBuf ⟨true, 0, 4⟩ false intTy
        demoLhs demoRhs .addrOf initState = initState ∧
    ¬ visitArraySubscriptExpr defaultCfg demoBuf ⟨true, 0, 4⟩ false intTy
        demoLhs demoRhs .root initState = initState := by
  decide

/-- C6 amended: a subscript candidate whose immediately containing
construct is an address-of operator or a size-of/static-introspection
construct is rejected — it is not transformed (no edit, nothing marked
processed) — but the rejection is not recorded: the visitor state,
statistics included, is exactly unchanged. -/
theorem c6_amended_context_skip_unrecorded (cfg : TransformationConfig)
    (buf : List Char) (sp : Span) (sys : Bool) (lhsTy : CType)
    (lhs rhs : CExpr) (parent : ParentCtx) (s : VState)
    (h : isContextSkipped parent = true) :
    visitArraySubscriptExpr cfg buf sp sys lhsTy lhs rhs parent s = s := by
  simp [visitArraySubscriptExpr, shouldSkipExpression, h]

/-- Witness for the amended C6 under an address-of parent. -/
theorem c6_amended_context_skip_witness :
    isContextSkipped .addrOf = true ∧
    visitArraySubscriptExpr defaultCfg demoBuf ⟨true, 0, 4⟩ false intTy
        demoLhs demoRhs .addrOf initState = initState :=
  ⟨by decide,
   c6_amended_context_skip_unrecorded defaultCfg demoBuf ⟨true, 0, 4⟩ false
     intTy demoLhs demoRhs .addrOf initState (by decide)⟩

/-- C7 counterexample: a subscript candidate whose base operand type is
volatile-qualified is instrumented by the pipeline — the produced output
differs from the original buffer — so the transformation does not leave
its source text unchanged (the repository's own VolatileArrayAccess test
expects exactly this transformation). -/
theorem c7_volatile_instrumented_counterexample :
    volTy.isVolatileQualified = true ∧
    ¬ endSourceFileAction demoBuf
        (traverse defaultCfg demoBuf (demoSubscript volTy) .root
          initState).edits = demoBuf := by
  decide

/-- C7 amended: the type analyzer's safety predicate does classify
volatile-qualified and incomplete operand types as unsafe to instrument,
but no part of the transformation pipeline consults it: the subscript
visitor's behaviour is invariant under the operand type's volatile
qualifier, so volatile operands are instrumented like any other. -/
theorem c7_amended_safety_predicate_unconsulted :
    (∀ ty : CType,
      ty.isVolatileQualified = true ∨ ty.isIncompleteType = true →
      isSafeForInstrumentation ty = false) ∧
    (∀ (cfg : TransformationConfig) (buf : List Char) (sp : Span)
      (sys : Bool) (lhsTy : CType) (b : Bool) (lhs rhs : CExpr)
      (parent : ParentCtx) (s : VState),
      visitArraySubscriptExpr cfg buf sp sys
          { lhsTy with isVolatileQualified := b } lhs rhs parent s =
        visitArraySubscriptExpr cfg buf sp sys lhsTy lhs rhs parent s) := by
  constructor
  · intro ty h
    rcases h with h | h <;> simp [isSafeForInstrumentation, h]
  · intro cfg buf sp sys lhsTy b lhs rhs parent s
    rfl

/-- Witness for the amended C7 at the volatile demonstration type. -/
theorem c7_amended_safety_predicate_witness :
    isSafeForInstrumentation volTy = false ∧
    visitArraySubscriptExpr defaultCfg demoBuf ⟨true, 0, 4⟩ false
        { intTy with isVolatileQualified := true } demoLhs demoRhs .root
        initState =
      visitArraySubscriptExpr defaultCfg demoBuf ⟨true, 0, 4⟩ false intTy
        demoLhs demoRhs .root initState :=
  ⟨c7_amended_safety_predicate_unconsulted.1 volTy (Or.inl rfl),
   c7_amended_safety_predicate_unconsulted.2 defaultCfg demoBuf ⟨true, 0, 4⟩
     false intTy true demoLhs demoRhs .root initState⟩

/-- C8: committing zero edits is the identity — whenever a traversal of a
file accepts no edit, the produced output is byte-identical to the
original buffer (the rewrite buffer does not exist, so the original text
is returned). -/
theorem c8_zero_edits_identity (cfg : TransformationConfig)
    (buf : List Char) (tree : CExpr)
    (h : (traverse cfg buf tree .root initState).edits = []) :
    endSourceFileAction buf (traverse cfg buf tree .root initState).edits
      = buf := by
  rw [h]
  rfl

/-- Witness for C8: with every transformation disabled the demonstration
file accepts no edit and round-trips byte-identically. -/
theorem c8_zero_edits_identity_witness :
    (traverse cfgOff demoBuf (demoSubscript intTy) .root initState).edits
      = [] ∧
    endSourceFileAction demoBuf
        (traverse cfgOff demoBuf (demoSubscript intTy) .root
          initState).edits = demoBuf :=
  ⟨by decide,
   c8_zero_edits_identity cfgOff demoBuf (demoSubscript intTy) (by decide)⟩

/-- C9 counterexample: the array-subscript matcher classifies one and the
same node differently depending on its surrounding context — matched at
statement position, rejected under an address-of parent — refuting that
classification is a function of the node's structure alone, independent
of surrounding context. -/
theorem c9_parent_context_dependence_counterexample :
    arraySubscriptMatcher (demoSubscript intTy) .root = true ∧
    arraySubscriptMatcher (demoSubscript intTy) .addrOf = false := by
  decide

/-- C9 amended: classification is a deterministic, side-effect-free
function of the node's shape, its system-header origin flag, and its
immediate parent — two nodes agreeing on these classify identically, so
two runs on the same input agree — but it is not independent of
surrounding context: the matcher's parent clauses (see the
counterexample) consult the containing construct. -/
theorem c9_amended_classification_structural_determinism
    (e1 e2 : CExpr) (parent : ParentCtx)
    (h1 : isSubscriptNode e1 = isSubscriptNode e2)
    (h2 : e1.sysHeader = e2.sysHeader) :
    arraySubscriptMatcher e1 parent = arraySubscriptMatcher e2 parent := by
  simp [arraySubscriptMatcher, h1, h2]

/-- Witness for the amended C9: two structurally different subscripts
with the same shape and origin flag classify identically. -/
theorem c9_amended_classification_witness :
    isSubscriptNode (demoSubscript intTy) =
      isSubscriptNode (demoSubscript depTy) ∧
    (demoSubscript intTy).sysHeader = (demoSubscript depTy).sysHeader ∧
    arraySubscriptMatcher (demoSubscript intTy) .otherCtx =
      arraySubscriptMatcher (demoSubscript depTy) .otherCtx :=
  ⟨by decide, by decide,
   c9_amended_classification_structural_determinism (demoSubscript intTy)
     (demoSubscript depTy) .otherCtx (by decide) (by decide)⟩

/-- One subscript visit can only extend the processed-range set. -/
theorem visitArraySubscriptExpr_processed_mono (cfg : TransformationConfig)
    (buf : List Char) (sp : Span) (sys : Bool) (lhsTy : CType)
    (lhs rhs : CExpr) (parent : ParentCtx) (s : VState) :
    s.processed ⊆
      (visitArraySubscriptExpr cfg buf sp sys lhsTy lhs rhs parent
        s).processed := by
  rcases visitArraySubscriptExpr_cases cfg buf sp sys lhsTy lhs rhs parent s
    with h | ⟨_, h⟩ | ⟨_, h⟩ <;> rw [h]
  · exact List.Subset.refl _
  · exact List.Subset.refl _
  · exact List.subset_append_left _ _

/-- One binary-operator visit can only extend the processed-range set. -/
theorem visitBinaryOperator_processed_mono (cfg : TransformationConfig)
    (buf : List Char) (sp : Span) (sys : Bool) (op : BinOp)
    (lhsTy rhsTy : CType) (lhs rhs : CExpr) (parent : ParentCtx)
    (s : VState) :
    s.processed ⊆
      (visitBinaryOperator cfg buf sp sys op lhsTy rhsTy lhs rhs parent
        s).processed := by
  rcases visitBinaryOperator_cases cfg buf sp sys op lhsTy rhsTy lhs rhs
    parent s with h | ⟨_, h⟩ | ⟨_, h⟩ <;> rw [h]
  · exact List.Subset.refl _
  · exact List.Subset.refl _
  · exact List.subset_append_left _ _

/-- A whole traversal can only extend the processed-range set. -/
theorem traverse_processed_mono (cfg : TransformationConfig)
    (buf : List Char) :
    ∀ (e : CExpr) (p : ParentCtx) (s : VState),
      s.processed ⊆ (traverse cfg buf e p s).processed := by
  intro e
  induction e with
  | atom sp sys =>
      intro p s
      simp [traverse]
  | addrOf sp sys operand ih =>
      intro p s
      simpa [traverse] using ih .addrOf s
  | sizeofOp sp sys operand ih =>
      intro p s
      simpa [traverse] using ih .sizeofTrait s
  | subscript sp sys lhsTy lhs rhs ihl ihr =>
      intro p s
      simp only [traverse]
      exact ((ihl .otherCtx s).trans (ihr .otherCtx _)).trans
        (visitArraySubscriptExpr_processed_mono cfg buf sp sys lhsTy lhs rhs
          p _)
  | binop sp sys op lhsTy rhsTy lhs rhs ihl ihr =>
      intro p s
      simp only [traverse]
      exact ((ihl .otherCtx s).trans (ihr .otherCtx _)).trans
        (visitBinaryOperator_processed_mono cfg buf sp sys op lhsTy rhsTy
          lhs rhs p _)

/-- One subscript visit preserves the ledger invariant. -/
theorem visitArraySubscriptExpr_goodState (cfg : TransformationConfig)
    (buf : List Char) (sp : Span) (sys : Bool) (lhsTy : CType)
    (lhs rhs : CExpr) (parent : ParentCtx) (s : VState)
    (hg : GoodState s) :
    GoodState (visitArraySubscriptExpr cfg buf sp sys lhsTy lhs rhs parent
      s) := by
  rcases visitArraySubscriptExpr_cases cfg buf sp sys lhsTy lhs rhs parent s
    with h | ⟨_, h⟩ | ⟨hp, h⟩ <;> rw [h]
  · exact hg
  · exact hg
  · have hp' : (sp.b, sp.e) ∉ s.processed := by
      simpa [isAlreadyProcessed] using hp
    have hkeys : (sp.b, sp.e) ∉ editKeys s := fun hmem => hp' (hg.2 _ hmem)
    constructor
    · simp only [GoodState, editKeys, List.map_append, List.map_cons,
        List.map_nil]
      rw [List.nodup_append]
      exact ⟨hg.1, List.nodup_singleton _, by
        simp only [List.disjoint_singleton]
        exact hkeys⟩
    · intro k hk
      simp only [editKeys, List.map_append, List.map_cons, List.map_nil,
        List.mem_append, List.mem_singleton] at hk
      rcases hk with hk | hk
      · exact List.mem_append_left _ (hg.2 _ hk)
      · exact List.mem_append_right _ (by simp [hk])

/-- One binary-operator visit preserves the ledger invariant. -/
theorem visitBinaryOperator_goodState (cfg : TransformationConfig)
    (buf : List Char) (sp : Span) (sys : Bool) (op : BinOp)
    (lhsTy rhsTy : CType) (lhs rhs : CExpr) (parent : ParentCtx)
    (s : VState) (hg : GoodState s) :
    GoodState (visitBinaryOperator cfg buf sp sys op lhsTy rhsTy lhs rhs
      parent s) := by
  rcases visitBinaryOperator_cases cfg buf sp sys op lhsTy rhsTy lhs rhs
    parent s with h | ⟨_, h⟩ | ⟨hp, h⟩ <;> rw [h]
  · exact hg
  · exact hg
  · have hp' : (sp.b, sp.e) ∉ s.processed := by
      simpa [isAlreadyProcessed] using hp
    have hkeys : (sp.b, sp.e) ∉ editKeys s := fun hmem => hp' (hg.2 _ hmem)
    constructor
    · simp only [GoodState, editKeys, List.map_append, List.map_cons,
        List.map_nil]
      rw [List.nodup_append]
      exact ⟨hg.1, List.nodup_singleton _, by
        simp only [List.disjoint_singleton]
        exact hkeys⟩
    · intro k hk
      simp only [editKeys, List.map_append, List.map_cons, List.map_nil,
        List.mem_append, List.mem_singleton] at hk
      rcases hk with hk | hk
      · exact List.mem_append_left _ (hg.2 _ hk)
      · exact List.mem_append_right _ (by simp [hk])

/-- A whole traversal preserves the ledger invariant. -/
theorem traverse_goodState (cfg : TransformationConfig) (buf : List Char) :
    ∀ (e : CExpr) (p : ParentCtx) (s : VState),
      GoodState s → GoodState (traverse cfg buf e p s) := by
  intro e
  induction e with
  | atom sp sys =>
      intro p s hg
      simpa [traverse] using hg
  | addrOf sp sys operand ih =>
      intro p s hg
      simpa [traverse] using ih .addrOf s hg
  | sizeofOp sp sys operand ih =>
      intro p s hg
      simpa [traverse] using ih .sizeofTrait s hg
  | subscript sp sys lhsTy lhs rhs ihl ihr =>
      intro p s hg
      simp only [traverse]
      exact visitArraySubscriptExpr_goodState cfg buf sp sys lhsTy lhs rhs
        p _ (ihr .otherCtx _ (ihl .otherCtx s hg))
  | binop sp sys op lhsTy rhsTy lhs rhs ihl ihr =>
      intro p s hg
      simp only [traverse]
      exact visitBinaryOperator_goodState cfg buf sp sys op lhsTy rhsTy lhs
        rhs p _ (ihr .otherCtx _ (ihl .otherCtx s hg))

/-- C10: during one file's traversal the processed-range set only grows;
a candidate node whose exact (begin offset, end offset) pair is already
in the set is left entirely alone by its visit handler; and consequently
a full traversal from the initial state commits at most one edit per
exact span key (the recorded edit keys are pairwise distinct). -/
theorem c10_processed_set_monotone_and_exact_span_once :
    (∀ (cfg : TransformationConfig) (buf : List Char) (e : CExpr)
      (p : ParentCtx) (s : VState),
      ∀ k ∈ s.processed, k ∈ (traverse cfg buf e p s).processed) ∧
    (∀ (cfg : TransformationConfig) (buf : List Char) (e : CExpr)
      (p : ParentCtx) (s : VState),
      isCandidateNode e = true → isAlreadyProcessed s e.span = true →
      visitNode cfg buf e p s = s) ∧
    (∀ (cfg : TransformationConfig) (buf : List Char) (e : CExpr)
      (p : ParentCtx),
      (editKeys (traverse cfg buf e p initState)).Nodup) := by
  refine ⟨fun cfg buf e p s k hk =>
      traverse_processed_mono cfg buf e p s hk, ?_, ?_⟩
  · intro cfg buf e p s hc hp
    cases e with
    | atom sp sys => rfl
    | addrOf sp sys operand => rfl
    | sizeofOp sp sys operand => rfl
    | subscript sp sys lhsTy lhs rhs =>
        simp only [CExpr.span] at hp
        simp [visitNode, visitArraySubscriptExpr, hp]
    | binop sp sys op lhsTy rhsTy lhs rhs =>
        simp only [CExpr.span] at hp
        simp [visitNode, visitBinaryOperator, hp]
  · intro cfg buf e p
    exact (traverse_goodState cfg buf e p initState
      ⟨List.nodup_nil, by intro k hk; simp [editKeys, initState] at hk⟩).1

/-- Witness for C10 at the demonstration candidate: its span key, once in
the set, survives the traversal; its visit leaves the pre-seeded state
unchanged; and the fresh run's edit keys are distinct. -/
theorem c10_processed_set_witness :
    (0, 4) ∈ (traverse defaultCfg demoBuf (demoSubscript intTy) .root
      procState).processed ∧
    visitNode defaultCfg demoBuf (demoSubscript intTy) .root procState =
      procState ∧
    (editKeys (traverse defaultCfg demoBuf (demoSubscript intTy) .root
      initState)).Nodup :=
  ⟨c10_processed_set_monotone_and_exact_span_once.1 defaultCfg demoBuf
      (demoSubscript intTy) .root procState (0, 4) (by decide),
   c10_processed_set_monotone_and_exact_span_once.2.1 defaultCfg demoBuf
      (demoSubscript intTy) .root procState (by decide) (by decide),
   c10_processed_set_monotone_and_exact_span_once.2.2 defaultCfg demoBuf
      (demoSubscript intTy) .root⟩

end OptiWeave
